import Mathlib

/-!
Verification development for the UnifiedCSWFlow workflow engine.

The definitions below are a shallow embedding of the Python sources:
`main.py` (the per-site driver `runSite` and the top-level `main`),
`unifiedCSWFlow/workflow.py` (the `Workflow` stage sequence, the stage
controllers and the `Runner` job executor) and `unifiedCSWFlow/DAL.py`
(the SQLite run registry).  Pure computations become Lean functions;
the stateful stage loop becomes an explicit step relation on a run
state; fallible operations return `Option`.
-/

/-- The stage sequence of `Workflow.__init__` (workflow.py lines 66-78):
the reduced 11-stage pipeline, iterated in this fixed order. -/
def Workflow.wf : List String :=
  [ "preSGT",
    "preAWP",
    "AWPX",
    "AWPY",
    "checkX",
    "checkY",
    "postX",
    "postY",
    "rupVar",
    "runDS",
    "cleanUp" ]

/-- Python truthiness of the optional checkpoint token `rstage` in
`runSite`: `None` and the empty string are falsy, any other string is
truthy (`if rstage:` at main.py line 160).  Note that an empty token can
never actually be read from the checkpoint file: each stage writes a
non-empty name, and `f.readlines()[0]` of a non-empty file is a
non-empty string. -/
def truthy : Option String → Bool
  | none => false
  | some s => s ≠ ""

/-- The stages actually built/run/postprocessed by the `for stage in pbar`
loop of `runSite` (main.py lines 151-179), as a function of the resume
token `rstage` read from the checkpoint file.  While `rstage` is truthy
every stage is skipped (`continue`); the stage equal to `rstage` clears
it (`rstage = None`) but is itself still skipped; afterwards every stage
executes. -/
def executedStages : Option String → List String → List String
  | _, [] => []
  | r, s :: rest =>
    if truthy r then
      executedStages (if r = some s then none else r) rest
    else
      s :: executedStages r rest

/-- One row of the `CyberShake_Runs` table, with the columns named in the
insert statement of `SQLiteHandler.addRunInfo` (DAL.py lines 69-71).
Numeric parameters are modelled as integers (the engine only passes them
through). -/
structure RunRow where
  runId : Int
  siteId : Int
  erfId : Int
  sgtVariationId : Int
  velocityModelId : Int
  rupVarScenarioId : Int
  status : String
  statusTime : String
  lastUser : String
  maxFrequency : Int
  lowFrequencyCutoff : Int
  sgtSourceFilterFrequency : Int
deriving DecidableEq

/-- The components of `datetime.now()` consumed by the `strftime` call in
`addRunInfo` (DAL.py line 74); the wall clock is an explicit input of the
model. -/
structure PyDateTime where
  year : Nat
  month : Nat
  day : Nat
  hour : Nat
  minute : Nat
  second : Nat
deriving DecidableEq

/-- Two-digit zero padding as performed by the strftime directives
`%m`, `%d`, `%H`, `%M`, `%S` for values below 100. -/
def pad2 (n : Nat) : String :=
  if n < 10 then "0" ++ toString n else toString n

/-- The `Status_Time` string built by
`datetime.now().strftime("%Y-0%m-%d %H:%M:%S")` in `addRunInfo`
(DAL.py line 74): note the literal `0` between the `-` and the
zero-padded month directive `%m`. -/
def statusTimeFormat (t : PyDateTime) : String :=
  toString t.year ++ "-0" ++ pad2 t.month ++ "-" ++ pad2 t.day ++ " "
    ++ pad2 t.hour ++ ":" ++ pad2 t.minute ++ ":" ++ pad2 t.second

/-- The row whose column values `addRunInfo` interpolates into its insert
statement (DAL.py lines 77-79): constants `1` for SGT_Variation_ID and
Rup_Var_Scenario_ID, status `"SGT Started"`, user `"BSC"`, `freq` for
both Max_Frequency and Low_Frequency_Cutoff and `sfreq` for
SGT_Source_Filter_Frequency. -/
def mkRunRow (runID siteID erfID modelID sfreq freq : Int) (now : PyDateTime) : RunRow :=
  { runId := runID
    siteId := siteID
    erfId := erfID
    sgtVariationId := 1
    velocityModelId := modelID
    rupVarScenarioId := 1
    status := "SGT Started"
    statusTime := statusTimeFormat now
    lastUser := "BSC"
    maxFrequency := freq
    lowFrequencyCutoff := freq
    sgtSourceFilterFrequency := sfreq }

/-- Embeds `SQLiteHandler.addRunInfo` (DAL.py lines 66-88).  Modelled from the
spec for the part outside src/: the `CyberShake_Runs` table lives in an
externally created SQLite database whose schema is not in the repo; per
spec §6 the run id column is unique, so SQLite raises `IntegrityError`
on a duplicate `Run_Id`.  The code catches that error and ignores it
(`except sqlite3.IntegrityError: pass`, lines 82-85), then commits, so a
duplicate-key insert leaves the table unchanged and raises nothing. -/
def addRunInfo (db : List RunRow) (runID siteID erfID modelID sfreq freq : Int)
    (now : PyDateTime) : List RunRow :=
  if db.any (fun r => r.runId == runID) then db
  else db ++ [mkRunRow runID siteID erfID modelID sfreq freq now]

/-- Embeds `SQLiteHandler.getValidRunId` (DAL.py lines 50-63).  The SQL query
`select max(Run_ID) from CyberShake_Runs` yields one row whose single
column is NULL on an empty table and the maximum otherwise (modelled by
`List.max?`); the code starts from `runid = 1` and adds `row[0]` only
when it is truthy (not NULL and not 0). -/
def getValidRunId (db : List RunRow) : Int :=
  match (db.map (fun r => r.runId)).max? with
  | none => 1
  | some v => if v ≠ 0 then 1 + v else 1

/-- The run-id allocation loop of `main` (main.py lines 238-242): site
number `i` (0-based, in input list order) receives `runID + i`. -/
def allocRunIds (startId : Int) (sites : List String) : List Int :=
  (List.range sites.length).map (fun i => startId + i)

/-- The per-run working directory computed by `runSite` (main.py
line 96): `config["output"]["path"] + "/" + site + "_" + str(runID)`. -/
def cRunPath (basePath site : String) (runID : Int) : String :=
  basePath ++ "/" ++ site ++ "_" ++ toString runID

/-- The numeric display slot of `runSite` (main.py line 82):
`id = (runID%2+1)*2-1`. -/
def workerSlot (runID : Nat) : Nat :=
  (runID % 2 + 1) * 2 - 1

/-- Python `i.split("_")[-1]`: the substring after the last underscore
(the whole string when there is none, empty when the string ends in an
underscore), as applied to globbed directory names in `main`
(main.py lines 217-219). -/
def suffixAfterLastUnderscore (s : String) : String :=
  String.mk ((s.data.reverse.takeWhile (fun c => c ≠ '_')).reverse)

/-- Python `int(...)` on a decimal-digit string: its numeric value, or
`none` (a `ValueError`) when the string is empty or contains a
non-digit. -/
def pyInt (s : String) : Option Nat :=
  if s.data.isEmpty then none else parseDigits s.data 0
where
  parseDigits : List Char → Nat → Option Nat
    | [], acc => some acc
    | c :: cs, acc =>
      if 48 ≤ c.toNat ∧ c.toNat ≤ 57 then parseDigits cs (10 * acc + (c.toNat - 48))
      else none

/-- Python string comparison `a < b`: lexicographic over code points. -/
def pyStrLt (a b : String) : Bool :=
  lexLt a.data b.data
where
  lexLt : List Char → List Char → Bool
    | [], [] => false
    | [], _ :: _ => true
    | _ :: _, [] => false
    | c :: cs, d :: ds =>
      if c.toNat < d.toNat then true
      else if d.toNat < c.toNat then false
      else lexLt cs ds

/-- Python `min` over a list of strings: the lexicographically least
element (`None` stands for the `ValueError` on an empty sequence). -/
def pyMinString : List String → Option String
  | [] => none
  | s :: rest => some (rest.foldl (fun a b => if pyStrLt b a then b else a) s)

/-- The restart-mode run-id derivation of `main` (main.py lines 216-219):
`tmpids = [i.split("_")[-1] for i in glob(...)]` over the globbed
directory names, and when non-empty `runID = int(min(tmpids))` — the
`min` is taken over the suffix *strings*, then converted.  `none` models
the `ValueError` raised by `int` on a non-numeric suffix; when no
directory matches, the registry allocation `dbRunId` stands. -/
def deriveRestartRunId (dirNames : List String) (dbRunId : Int) : Option Int :=
  let tmpids := dirNames.map suffixAfterLastUnderscore
  match pyMinString tmpids with
  | none => some dbRunId
  | some m => (pyInt m).map (fun n => (n : Int))

/-- Observable events of `Runner._waitForSlurmJob` (workflow.py lines
237-261): each loop iteration issues one `squeue` status query, and
after the query that returns the empty string the single-use
`threading.Event` is set. -/
inductive PollEvent where
  | query (response : String)
  | setEvent
deriving DecidableEq

/-- The event trace of `Runner._waitForSlurmJob` given the sequence of
status-query outputs the scheduler will return (each query assumed to
exit 0; a non-zero exit raises instead).  The loop queries, stores the
message, breaks when the output is empty, and then sets the completion
event on which `enqueueSlurm` blocks. -/
def pollTrace : List String → List PollEvent
  | [] => []
  | s :: rest =>
    PollEvent.query s :: (if s = "" then [PollEvent.setEvent] else pollTrace rest)

/-- Whether a poll event is a status query. -/
def isQueryEvent : PollEvent → Bool
  | PollEvent.query _ => true
  | PollEvent.setEvent => false

/-- Side effects of `runSite` (main.py lines 79-182), in program order.
`postprocessStage s` covers everything stage `s`'s `postprocess` does,
ending with the write of the checkpoint file `stage.txt`. -/
inductive Effect where
  | mkdir (path : String)
  | chdir (path : String)
  | printMsg (msg : String)
  | addRunInfoRow (runId : Int)
  | genRuptures
  | writeCyberShakeCfg
  | buildStage (stage : String)
  | runStage (stage : String)
  | postprocessStage (stage : String)
deriving DecidableEq

/-- The environment `runSite` observes: the restart flag
(`config["compute"]["restart"]`), `os.path.isdir(cRunPath)`,
`os.path.exists(stageFile)`, the first line of the checkpoint file,
whether `dal.getSiteID(site)` found the site, and whether the ERF
configuration already carries a `ruptures` key. -/
structure SiteEnv where
  restart : Bool
  dirExists : Bool
  stageFileExists : Bool
  stageFileContent : String
  siteIdFound : Bool
  rupturesConfigured : Bool
deriving DecidableEq

/-- The effect trace of one `runSite` call (main.py lines 79-182) on the
success path (stage failures are modelled separately by the `Step`
relation below).  Control flow follows the source: `makedirs` unless
restarting into an existing directory, otherwise read the checkpoint
token; return after a single print when the token equals the last stage
of the workflow (`rstage == list(wflow)[-1]`, line 108) or when the site
id lookup fails; otherwise insert the run row, optionally generate
ruptures, write the CyberShake cfg and run
`build`/`run`/`postprocess` for every non-skipped stage. -/
def runSiteEffects (env : SiteEnv) (basePath site : String) (runID : Int) : List Effect :=
  let path := cRunPath basePath site runID
  let mkdirEffs : List Effect :=
    if !(env.restart && env.dirExists) then [Effect.mkdir path] else []
  let rstage : Option String :=
    if env.restart && env.dirExists && env.stageFileExists then some env.stageFileContent
    else none
  if truthy rstage && ((rstage.getD "") == Workflow.wf.getLastD "") then
    mkdirEffs ++ [Effect.printMsg ("Skipping site " ++ site ++ "\x27: Already done ")]
  else
    mkdirEffs ++ Effect.chdir path ::
      (if !env.siteIdFound then
        [Effect.printMsg ("[ERROR] Skipping site \x27" ++ site
          ++ ": It was not found in the database")]
      else
        Effect.addRunInfoRow runID ::
          ((if !env.rupturesConfigured then [Effect.genRuptures] else []) ++
            Effect.writeCyberShakeCfg ::
              (executedStages rstage Workflow.wf).flatMap
                (fun st => [Effect.buildStage st, Effect.runStage st,
                            Effect.postprocessStage st])))

/-- Where a fresh pipeline run stands between the atomic events of its
stage loop. -/
inductive Phase where
  | idle
  | running
  | failed
deriving DecidableEq

/-- State of one fresh pipeline run (no resume token): how many stages
have fully completed (stages execute strictly in `Workflow.wf` order, so
the completed stages are exactly the first `completedCount`), whether a
stage attempt is currently in flight or has failed, and the token held
by the checkpoint file `stage.txt`. -/
structure RunState where
  completedCount : Nat
  phase : Phase
  checkpoint : Option String
deriving DecidableEq

/-- A fresh run: no stage attempted, no checkpoint file. -/
def initState : RunState :=
  { completedCount := 0, phase := Phase.idle, checkpoint := none }

/-- Atomic events of the stage loop of `runSite` (main.py lines 151-179):
`start` — the loop enters stage number `completedCount`, calls `build()`
and launches `run()`;
`finish` — `run()` returned successfully and `postprocess()` ran,
whose final action writes the stage's name to the checkpoint file
(workflow.py, each stage's `postprocess`);
`fail` — `run()` raised (non-zero local exit, failed `sbatch`
submission, or failed `squeue` status query; workflow.py lines 189-261):
the exception propagates out of `runSite`, so `postprocess` never runs
and the checkpoint file keeps its previous content. -/
inductive Step : RunState → RunState → Prop
  | start (s : RunState) (h : s.phase = Phase.idle)
      (hlt : s.completedCount < Workflow.wf.length) :
      Step s { completedCount := s.completedCount, phase := Phase.running,
               checkpoint := s.checkpoint }
  | finish (s : RunState) (h : s.phase = Phase.running) :
      Step s { completedCount := s.completedCount + 1, phase := Phase.idle,
               checkpoint := Workflow.wf.get? s.completedCount }
  | fail (s : RunState) (h : s.phase = Phase.running) :
      Step s { completedCount := s.completedCount, phase := Phase.failed,
               checkpoint := s.checkpoint }

/-- A state of a fresh pipeline run the loop can actually reach. -/
def Reachable (s : RunState) : Prop :=
  Relation.ReflTransGen Step initState s

/-- Stage number `i` has fully completed (build, execute and
postprocess). -/
def stageCompleted (s : RunState) (i : Nat) : Prop :=
  i < s.completedCount

/-- Stage number `i` has started (its `build()` has been called): either
it already completed, or it is the stage currently in flight or failed. -/
def stageStarted (s : RunState) (i : Nat) : Prop :=
  i < s.completedCount ∨ (i = s.completedCount ∧ s.phase ≠ Phase.idle)

/-- The checkpoint invariant exactly as the spec states it: whenever a
checkpoint token is present, every stage strictly before it in
`Workflow.wf` order has fully completed and no stage strictly after it
has started. -/
def checkpointInvariantLiteral (s : RunState) : Prop :=
  ∀ t, s.checkpoint = some t →
    (∀ i, i < Workflow.wf.indexOf t → stageCompleted s i) ∧
    (∀ i, Workflow.wf.indexOf t < i → i < Workflow.wf.length → ¬ stageStarted s i)

/-- Internal shape of every reachable run state: the completed count
never exceeds the number of stages, a stage can only be in flight while
stages remain, and the checkpoint file holds exactly the name of the
last completed stage (or nothing when none has completed). -/
def RunInv (s : RunState) : Prop :=
  s.completedCount ≤ Workflow.wf.length ∧
  (s.phase ≠ Phase.idle → s.completedCount < Workflow.wf.length) ∧
  s.checkpoint = (if s.completedCount = 0 then none
                  else Workflow.wf.get? (s.completedCount - 1))

/-- Outcome of one stage's `run()` call as observed by the pipeline run
that issued it. -/
inductive ExecResult where
  | success
  | raised
  | hang
deriving DecidableEq

/-- Embeds `Runner.runBashScript` (workflow.py lines 189-201): the local
subprocess is awaited and a non-zero return code raises an exception in
the pipeline run's own thread. -/
def runBashScript (returncode : Int) : ExecResult :=
  if returncode ≠ 0 then ExecResult.raised else ExecResult.success

/-- Terminal behaviour of the background polling thread
`Runner._waitForSlurmJob` (workflow.py lines 237-261) given the results
the status queries will return: `some out` is a query that exited 0 with
standard output `out`, `none` is a query that exited non-zero.  An empty
output breaks the loop and sets the single-use completion event; a
failing query raises inside the *background thread*, which kills only
that thread, so the event is never set.  The result is `none` when the
modelled horizon ends before either happens. -/
def pollOutcome : List (Option String) → Option Bool
  | [] => none
  | none :: _ => some false
  | some s :: rest => if s = "" then some true else pollOutcome rest

/-- Embeds `Runner.enqueueSlurm` (workflow.py lines 204-234) together
with its waiting loop: a non-zero `sbatch` exit raises in the pipeline
run's thread; otherwise the stage blocks on the completion event
(`while not self.resultAvailable.wait(timeout=timeout)`), returning only
if the event is set — when the polling thread died without setting it,
the wait loops forever and the stage hangs. -/
def enqueueSlurm (submitReturncode : Int)
    (queryResults : List (Option String)) : Option ExecResult :=
  if submitReturncode ≠ 0 then some ExecResult.raised
  else (pollOutcome queryResults).map
    (fun eventSet => if eventSet then ExecResult.success else ExecResult.hang)

theorem executedStages_none (l : List String) : executedStages none l = l := by
  induction l with
  | nil => rfl
  | cons s rest ih => simp [executedStages, truthy, ih]

theorem executedStages_not_mem (T : String) (hT : T ≠ "") :
    ∀ l : List String, T ∉ l → executedStages (some T) l = [] := by
  intro l
  induction l with
  | nil => intro _; rfl
  | cons s rest ih =>
    intro hmem
    have hs : T ≠ s := fun h => hmem (h ▸ List.mem_cons_self s rest)
    have : (some T = some s) = False := by
      simp only [Option.some.injEq, eq_false_intro hs]
    simp [executedStages, truthy, hT, this, ih (fun h => hmem (List.mem_cons_of_mem s h))]

theorem executedStages_mem (T : String) (hT : T ≠ "") :
    ∀ l : List String, T ∈ l →
      executedStages (some T) l = l.drop (l.indexOf T + 1) := by
  intro l
  induction l with
  | nil => intro h; cases h
  | cons s rest ih =>
    intro hmem
    by_cases hs : T = s
    · subst hs
      simp [executedStages, truthy, hT, List.indexOf_cons_self, executedStages_none]
    · have : (some T = some s) = False := by
        simp only [Option.some.injEq, eq_false_intro hs]
      have hmem' : T ∈ rest := by
        cases hmem with
        | head => exact absurd rfl hs
        | tail _ h => exact h
      have hne : s ≠ T := fun h => hs h.symm
      simp [executedStages, truthy, hT, this, ih hmem',
            List.indexOf_cons_ne rest hne, List.drop_succ_cons]

/-- C1: for every checkpoint token T (tokens read from the checkpoint
file are never empty), resuming with T present in the workflow sequence
executes exactly the stages strictly after T, in their fixed order
(`Workflow.wf` is duplicate-free, so the suffix after the first
occurrence is exactly the set of stages strictly after T); a token that
matches no stage identifier silently skips the whole remainder. -/
theorem resume_skips_through_checkpoint (T : String) :
    Workflow.wf.Nodup ∧
    (T ∈ Workflow.wf →
      executedStages (some T) Workflow.wf
        = Workflow.wf.drop (Workflow.wf.indexOf T + 1)) ∧
    (T ≠ "" → T ∉ Workflow.wf → executedStages (some T) Workflow.wf = []) := by
  refine ⟨by decide, ?_, ?_⟩
  · intro hmem
    have hT : T ≠ "" := by
      intro h
      subst h
      revert hmem
      decide
    exact executedStages_mem T hT Workflow.wf hmem
  · intro hT hnot
    exact executedStages_not_mem T hT Workflow.wf hnot

/-- Witness for C1 at the spec's own scenario: checkpoint `checkX`
resumes with the stages after index 4. -/
theorem resume_skips_through_checkpoint_witness :
    ("checkX" ∈ Workflow.wf) ∧
    executedStages (some "checkX") Workflow.wf
      = Workflow.wf.drop (Workflow.wf.indexOf "checkX" + 1) :=
  ⟨by decide, (resume_skips_through_checkpoint "checkX").2.1 (by decide)⟩

/-- C4: inserting the same run identifier twice leaves exactly one row
keyed by it — the second call is a no-op (the duplicate-key insert is
caught and ignored) and the first row's contents are unchanged.
`addRunInfo` is a total function, so no error is raised. -/
theorem addRunInfo_idempotent
    (db : List RunRow) (runID s1 e1 m1 sf1 f1 s2 e2 m2 sf2 f2 : Int)
    (d1 d2 : PyDateTime) (hfresh : ∀ r ∈ db, r.runId ≠ runID) :
    addRunInfo (addRunInfo db runID s1 e1 m1 sf1 f1 d1) runID s2 e2 m2 sf2 f2 d2
      = addRunInfo db runID s1 e1 m1 sf1 f1 d1 ∧
    (addRunInfo (addRunInfo db runID s1 e1 m1 sf1 f1 d1) runID s2 e2 m2 sf2 f2 d2).filter
        (fun r => r.runId == runID)
      = [mkRunRow runID s1 e1 m1 sf1 f1 d1] := by
  have hany : (db.any fun r => r.runId == runID) = false := by
    rw [List.any_eq_false]
    intro r hr
    simpa using hfresh r hr
  have hfirst : addRunInfo db runID s1 e1 m1 sf1 f1 d1
      = db ++ [mkRunRow runID s1 e1 m1 sf1 f1 d1] := by
    simp [addRunInfo, hany]
  have hany2 : ((db ++ [mkRunRow runID s1 e1 m1 sf1 f1 d1]).any
      fun r => r.runId == runID) = true := by
    simp [List.any_append, mkRunRow]
  constructor
  · rw [hfirst]
    simp [addRunInfo, hany2]
  · rw [hfirst]
    simp only [addRunInfo, hany2, if_pos]
    rw [List.filter_append]
    have hnil : db.filter (fun r => r.runId == runID) = [] := by
      rw [List.filter_eq_nil_iff]
      intro r hr
      simpa using hfresh r hr
    rw [hnil]
    simp [mkRunRow]

/-- Witness for C4 on an empty registry with two different argument
sets sharing run id 5. -/
theorem addRunInfo_idempotent_witness :
    addRunInfo (addRunInfo [] 5 1 2 3 4 6 ⟨2025, 10, 5, 1, 2, 3⟩) 5 9 8 7 6 5
        ⟨2026, 1, 2, 3, 4, 5⟩
      = addRunInfo [] 5 1 2 3 4 6 ⟨2025, 10, 5, 1, 2, 3⟩ ∧
    (addRunInfo (addRunInfo [] 5 1 2 3 4 6 ⟨2025, 10, 5, 1, 2, 3⟩) 5 9 8 7 6 5
        ⟨2026, 1, 2, 3, 4, 5⟩).filter (fun r => r.runId == 5)
      = [mkRunRow 5 1 2 3 4 6 ⟨2025, 10, 5, 1, 2, 3⟩] :=
  addRunInfo_idempotent [] 5 1 2 3 4 6 9 8 7 6 5 ⟨2025, 10, 5, 1, 2, 3⟩
    ⟨2026, 1, 2, 3, 4, 5⟩ (by simp)

/-- C5: `getValidRunId` returns the registry maximum plus one (also when
the maximum is 0, where the Python truthiness test takes the other
branch but 1 = 0 + 1), and 1 on an empty table; on a fresh registry the
work-unit list `["A", "B"]` is allocated run ids 1 and 2 in list order,
with working directories `basePath/A_1` and `basePath/B_2`. -/
theorem getValidRunId_allocation :
    (∀ db : List RunRow, ∀ v : Int,
        (db.map (fun r => r.runId)).max? = some v → getValidRunId db = v + 1) ∧
    getValidRunId [] = 1 ∧
    allocRunIds (getValidRunId []) ["A", "B"] = [1, 2] ∧
    List.zipWith (fun site id => cRunPath "basePath" site id) ["A", "B"]
        (allocRunIds (getValidRunId []) ["A", "B"])
      = ["basePath/A_1", "basePath/B_2"] := by
  refine ⟨?_, by decide, by decide, by decide⟩
  intro db v h
  unfold getValidRunId
  rw [h]
  by_cases hv : v = 0
  · subst hv
    simp
  · simp [hv, Int.add_comm]

/-- Witness for C5: a registry whose maximal run id is 7 yields 8. -/
theorem getValidRunId_allocation_witness :
    (([⟨7, 1, 1, 1, 1, 1, "SGT Started", "", "BSC", 1, 1, 1⟩] : List RunRow).map
        (fun r => r.runId)).max? = some 7 ∧
    getValidRunId [⟨7, 1, 1, 1, 1, 1, "SGT Started", "", "BSC", 1, 1, 1⟩] = 7 + 1 :=
  ⟨by decide, getValidRunId_allocation.1 _ 7 (by decide)⟩

/-- C9 counterexample: with pool size 1 (a legal configuration) and the
odd run identifier 1, the display slot `(runID%2+1)*2-1` is 3, which is
not in `[0, 2*poolSize) = [0, 2)`. -/
theorem worker_slot_out_of_range_poolsize_one :
    workerSlot 1 = 3 ∧ ¬ workerSlot 1 < 2 * 1 := by
  decide

/-- C9 amended: the slot derived from the run identifier's parity is
always 1 or 3, hence it lies in `[0, 2*poolSize)` for every pool size of
at least 2 (but not for pool size 1). -/
theorem worker_slot_bounded (runID poolSize : Nat) (hpool : 2 ≤ poolSize) :
    (workerSlot runID = 1 ∨ workerSlot runID = 3) ∧ workerSlot runID < 2 * poolSize := by
  have h2 : runID % 2 < 2 := Nat.mod_lt _ (by decide)
  unfold workerSlot
  omega

/-- Witness for C9 amended at run id 5, pool size 2. -/
theorem worker_slot_bounded_witness :
    (workerSlot 5 = 1 ∨ workerSlot 5 = 3) ∧ workerSlot 5 < 2 * 2 :=
  worker_slot_bounded 5 2 (by decide)

/-- C10: for every date (month between 1 and 12), the `Status_Time`
string stored by `addRunInfo` renders the month field as a literal `0`
followed by the zero-padded two-digit month: three characters with a
leading zero; October is rendered `010`. -/
theorem status_time_month_three_digits (t : PyDateTime)
    (h1 : 1 ≤ t.month) (h2 : t.month ≤ 12) :
    statusTimeFormat t
      = toString t.year ++ "-" ++ ("0" ++ pad2 t.month) ++ "-"
        ++ (pad2 t.day ++ " " ++ pad2 t.hour ++ ":" ++ pad2 t.minute
            ++ ":" ++ pad2 t.second) ∧
    ("0" ++ pad2 t.month).length = 3 ∧
    ("0" ++ pad2 t.month).take 1 = "0" ∧
    (t.month = 10 → "0" ++ pad2 t.month = "010") := by
  obtain ⟨y, mo, d, hh, mi, ss⟩ := t
  simp only at h1 h2
  refine ⟨?_, ?_, ?_, ?_⟩
  · show toString y ++ "-0" ++ pad2 mo ++ "-" ++ pad2 d ++ " "
        ++ pad2 hh ++ ":" ++ pad2 mi ++ ":" ++ pad2 ss = _
    rw [show ("-0" : String) = "-" ++ "0" from rfl]
    simp only [String.append_assoc]
  · show (("0" : String) ++ pad2 mo).length = 3
    interval_cases mo <;> decide
  · show (("0" : String) ++ pad2 mo).take 1 = "0"
    interval_cases mo <;> decide
  · intro hmo
    show ("0" : String) ++ pad2 mo = "010"
    subst hmo
    decide

/-- Witness for C10 at 2025-10-05 01:02:03. -/
theorem status_time_month_three_digits_witness :
    statusTimeFormat ⟨2025, 10, 5, 1, 2, 3⟩
      = toString 2025 ++ "-" ++ ("0" ++ pad2 10) ++ "-"
        ++ (pad2 5 ++ " " ++ pad2 1 ++ ":" ++ pad2 2 ++ ":" ++ pad2 3) ∧
    ("0" ++ pad2 10).length = 3 ∧
    ("0" ++ pad2 10).take 1 = "0" ∧
    ((10 : Nat) = 10 → "0" ++ pad2 10 = "010") :=
  status_time_month_three_digits ⟨2025, 10, 5, 1, 2, 3⟩ (by decide) (by decide)

/-- C8: a scheduler job whose status query returns a non-empty line N
times and then an empty result makes the poller issue exactly N+1
queries and then signal the single-use completion event exactly once, as
the last event of the trace — the waiting stage therefore unblocks
exactly once, never before the (N+1)-th query has returned empty. -/
theorem slurm_poll_unblocks_once (pre rest : List String)
    (hne : ∀ s ∈ pre, s ≠ "") :
    pollTrace (pre ++ "" :: rest)
      = pre.map PollEvent.query ++ [PollEvent.query "", PollEvent.setEvent] ∧
    (pollTrace (pre ++ "" :: rest)).countP isQueryEvent = pre.length + 1 ∧
    (pollTrace (pre ++ "" :: rest)).count PollEvent.setEvent = 1 := by
  have key : pollTrace (pre ++ "" :: rest)
      = pre.map PollEvent.query ++ [PollEvent.query "", PollEvent.setEvent] := by
    induction pre with
    | nil => simp [pollTrace]
    | cons s ss ih =>
      have hs : s ≠ "" := hne s (List.mem_cons_self s ss)
      have ih' := ih (fun x hx => hne x (List.mem_cons_of_mem s hx))
      simp [pollTrace, hs, ih']
  refine ⟨key, ?_, ?_⟩
  · rw [key, List.countP_append, List.countP_map]
    have : List.countP (isQueryEvent ∘ PollEvent.query) pre = pre.length := by
      simp [List.countP_eq_length, isQueryEvent, Function.comp]
    rw [this]
    rfl
  · rw [key, List.count_append]
    have : (pre.map PollEvent.query).count PollEvent.setEvent = 0 := by
      rw [List.count_eq_zero]
      intro hmem
      rcases List.mem_map.mp hmem with ⟨x, _, hx⟩
      cases hx
    rw [this]
    rfl

/-- Witness for C8 with N = 2 non-empty responses. -/
theorem slurm_poll_unblocks_once_witness :
    pollTrace (["R", "R"] ++ "" :: [])
      = ["R", "R"].map PollEvent.query ++ [PollEvent.query "", PollEvent.setEvent] ∧
    (pollTrace (["R", "R"] ++ "" :: [])).countP isQueryEvent = ["R", "R"].length + 1 ∧
    (pollTrace (["R", "R"] ++ "" :: [])).count PollEvent.setEvent = 1 :=
  slurm_poll_unblocks_once ["R", "R"] [] (by decide)

theorem wf_indexOf_getD : ∀ n, n < 11 → Workflow.wf.indexOf (Workflow.wf.getD n "") = n := by
  decide

theorem wf_indexOf_of_get? (n : Nat) (t : String)
    (h : Workflow.wf.get? n = some t) : Workflow.wf.indexOf t = n := by
  have hn : n < Workflow.wf.length := by
    by_contra hcon
    rw [List.get?_eq_none.mpr (by omega)] at h
    cases h
  have hd : Workflow.wf.getD n "" = t := by
    rw [List.getD_eq_getElem?_getD, ← List.get?_eq_getElem?, h]
    rfl
  rw [← hd]
  exact wf_indexOf_getD n hn

theorem runInv_step (a b : RunState) (hab : Step a b) (ha : RunInv a) : RunInv b := by
  cases hab with
  | start hphase hlt =>
    exact ⟨ha.1, fun _ => hlt, ha.2.2⟩
  | finish hphase =>
    have hlt : a.completedCount < Workflow.wf.length := by
      apply ha.2.1
      rw [hphase]
      decide
    refine ⟨?_, fun hc => absurd rfl hc, ?_⟩
    · show a.completedCount + 1 ≤ Workflow.wf.length
      omega
    show Workflow.wf.get? a.completedCount
        = if a.completedCount + 1 = 0 then none
          else Workflow.wf.get? (a.completedCount + 1 - 1)
    simp
  | fail hphase =>
    refine ⟨ha.1, fun _ => ?_, ha.2.2⟩
    apply ha.2.1
    rw [hphase]
    decide

theorem reachable_runInv (s : RunState) (h : Reachable s) : RunInv s := by
  induction h with
  | refl =>
    exact ⟨by decide, fun hc => absurd rfl hc, by simp [initState]⟩
  | tail hab hbc ih =>
    exact runInv_step _ _ hbc ih

/-- C2 counterexample: the invariant exactly as stated — "no stage
strictly after the checkpoint has started" — fails at a reachable state:
after stage `preSGT` completes (checkpoint `preSGT`), the loop starts
stage `preAWP`, which lies strictly after the checkpoint, while the
checkpoint file still holds `preSGT`. -/
theorem checkpoint_invariant_literal_refuted :
    ¬ (∀ s : RunState, Reachable s → checkpointInvariantLiteral s) := by
  intro hclaim
  have h1 : Step initState ⟨0, Phase.running, none⟩ :=
    Step.start initState rfl (by decide)
  have h2 : Step ⟨0, Phase.running, none⟩ ⟨1, Phase.idle, some "preSGT"⟩ :=
    Step.finish ⟨0, Phase.running, none⟩ rfl
  have h3 : Step ⟨1, Phase.idle, some "preSGT"⟩ ⟨1, Phase.running, some "preSGT"⟩ :=
    Step.start ⟨1, Phase.idle, some "preSGT"⟩ rfl (by decide)
  have hreach : Reachable ⟨1, Phase.running, some "preSGT"⟩ :=
    Relation.ReflTransGen.tail
      (Relation.ReflTransGen.tail (Relation.ReflTransGen.single h1) h2) h3
  have hinv := hclaim ⟨1, Phase.running, some "preSGT"⟩ hreach
  unfold checkpointInvariantLiteral at hinv
  have hnot := (hinv "preSGT" rfl).2 1 (by decide) (by decide)
  exact hnot (Or.inr ⟨rfl, by decide⟩)

/-- C2 amended: at every reachable state of a fresh pipeline run, if a
checkpoint token is present then every stage strictly before it in
`Workflow.wf` order has fully completed, no stage strictly after it has
completed, and no stage beyond the one immediately following it has
started (the immediately following stage may be in flight or failed —
that is exactly what the counterexample above forces). -/
theorem checkpoint_invariant_amended (s : RunState) (hs : Reachable s) (t : String)
    (hc : s.checkpoint = some t) :
    (∀ i, i < Workflow.wf.indexOf t → stageCompleted s i) ∧
    (∀ i, Workflow.wf.indexOf t < i → ¬ stageCompleted s i) ∧
    (∀ i, Workflow.wf.indexOf t + 1 < i → ¬ stageStarted s i) := by
  obtain ⟨hle, hph, hck⟩ := reachable_runInv s hs
  rw [hc] at hck
  by_cases h0 : s.completedCount = 0
  · rw [if_pos h0] at hck
    cases hck
  · rw [if_neg h0] at hck
    have hidx : Workflow.wf.indexOf t = s.completedCount - 1 :=
      wf_indexOf_of_get? _ t hck.symm
    rw [hidx]
    refine ⟨?_, ?_, ?_⟩
    · intro i hi
      unfold stageCompleted
      omega
    · intro i hi
      unfold stageCompleted
      omega
    · intro i hi hst
      unfold stageStarted at hst
      rcases hst with h | ⟨h, _⟩ <;> omega

/-- Witness for C2 amended at the reachable state reached after stage
`preSGT` has fully completed. -/
theorem checkpoint_invariant_amended_witness :
    (∀ i, i < Workflow.wf.indexOf "preSGT" →
        stageCompleted ⟨1, Phase.idle, some "preSGT"⟩ i) ∧
    (∀ i, Workflow.wf.indexOf "preSGT" < i →
        ¬ stageCompleted ⟨1, Phase.idle, some "preSGT"⟩ i) ∧
    (∀ i, Workflow.wf.indexOf "preSGT" + 1 < i →
        ¬ stageStarted ⟨1, Phase.idle, some "preSGT"⟩ i) :=
  checkpoint_invariant_amended ⟨1, Phase.idle, some "preSGT"⟩
    (Relation.ReflTransGen.tail
      (Relation.ReflTransGen.single (Step.start initState rfl (by decide)))
      (Step.finish ⟨0, Phase.running, none⟩ rfl))
    "preSGT" rfl

theorem pollOutcome_threadDied (pre rest : List (Option String))
    (hpre : ∀ x ∈ pre, ∃ o, x = some o ∧ o ≠ "") :
    pollOutcome (pre ++ none :: rest) = some false := by
  induction pre with
  | nil => rfl
  | cons x xs ih =>
    obtain ⟨o, rfl, ho⟩ := hpre x (List.mem_cons_self x xs)
    have ih' := ih (fun y hy => hpre y (List.mem_cons_of_mem (some o) hy))
    simp [pollOutcome, ho, ih']

/-- C3 counterexample: a failed status query does not make the pipeline
run fail with a raised error.  The exception is raised inside the
background polling thread and dies with it (a Python thread does not
propagate exceptions to the thread that spawned it), the single-use
completion event is never set, and the waiting stage blocks forever on
`resultAvailable.wait`: the run hangs instead of raising. -/
theorem status_query_failure_hangs :
    enqueueSlurm 0 [some "Slurm job RUNNING (0:01 of 1:00)", none]
      = some ExecResult.hang ∧
    ExecResult.hang ≠ ExecResult.raised := by
  decide

/-- C3 amended: a non-zero local exit or a failed scheduler submission
raises an error in the pipeline run itself, which moves to a terminal
failed state — no further step is possible, in particular that stage's
postprocess never runs — with the checkpoint and completed count
unchanged (visible in the target state); a failed status query instead
leaves the stage blocked forever (`hang`, see the counterexample above:
the checkpoint is equally not advanced, since the run never leaves the
stage).  Resuming with the unchanged checkpoint token re-executes the
pipeline starting exactly at the failed stage. -/
theorem stage_failure_not_advancing (s : RunState) (hs : Reachable s)
    (hrun : s.phase = Phase.running) :
    (∀ rc : Int, rc ≠ 0 → runBashScript rc = ExecResult.raised) ∧
    (∀ rc : Int, rc ≠ 0 → ∀ qrs, enqueueSlurm rc qrs = some ExecResult.raised) ∧
    (∀ pre rest : List (Option String), (∀ x ∈ pre, ∃ o, x = some o ∧ o ≠ "") →
      enqueueSlurm 0 (pre ++ none :: rest) = some ExecResult.hang) ∧
    Step s ⟨s.completedCount, Phase.failed, s.checkpoint⟩ ∧
    (∀ u, ¬ Step ⟨s.completedCount, Phase.failed, s.checkpoint⟩ u) ∧
    (∃ failedStage,
      Workflow.wf.get? s.completedCount = some failedStage ∧
      executedStages s.checkpoint Workflow.wf
        = failedStage :: Workflow.wf.drop (s.completedCount + 1)) := by
  obtain ⟨hle, hph, hck⟩ := reachable_runInv s hs
  refine ⟨?_, ?_, ?_, ?_⟩
  · intro rc hrc
    simp [runBashScript, hrc]
  · intro rc hrc qrs
    simp [enqueueSlurm, hrc]
  · intro pre rest hpre
    simp [enqueueSlurm, pollOutcome_threadDied pre rest hpre]
  have hlt : s.completedCount < Workflow.wf.length := by
    apply hph
    rw [hrun]
    decide
  refine ⟨Step.fail s hrun, ?_, ?_⟩
  · intro u hstep
    cases hstep with
    | start h hlt' => simp at h
    | finish h => simp at h
    | fail h => simp at h
  · have hdrop : executedStages s.checkpoint Workflow.wf
        = Workflow.wf.drop s.completedCount := by
      by_cases h0 : s.completedCount = 0
      · rw [if_pos h0] at hck
        rw [hck, executedStages_none, h0, List.drop_zero]
      · rw [if_neg h0] at hck
        obtain ⟨t, ht⟩ : ∃ t, Workflow.wf.get? (s.completedCount - 1) = some t := by
          rw [List.get?_eq_get (by omega : s.completedCount - 1 < Workflow.wf.length)]
          exact ⟨_, rfl⟩
        rw [hck, ht]
        have htmem : t ∈ Workflow.wf := List.get?_mem ht
        have htne : t ≠ "" := by
          intro he
        -- the stage names of Workflow.wf are all non-empty
          rw [he] at htmem
          revert htmem
          decide
        rw [executedStages_mem t htne Workflow.wf htmem, wf_indexOf_of_get? _ t ht]
        congr 1
        omega
    refine ⟨Workflow.wf.get ⟨s.completedCount, hlt⟩, List.get?_eq_get hlt, ?_⟩
    rw [hdrop, List.drop_eq_getElem_cons hlt]
    rfl

/-- Witness for C3 at the reachable state in which the very first stage
is in flight. -/
theorem stage_failure_not_advancing_witness :
    (∀ rc : Int, rc ≠ 0 → runBashScript rc = ExecResult.raised) ∧
    (∀ rc : Int, rc ≠ 0 → ∀ qrs, enqueueSlurm rc qrs = some ExecResult.raised) ∧
    (∀ pre rest : List (Option String), (∀ x ∈ pre, ∃ o, x = some o ∧ o ≠ "") →
      enqueueSlurm 0 (pre ++ none :: rest) = some ExecResult.hang) ∧
    Step ⟨0, Phase.running, none⟩ ⟨0, Phase.failed, none⟩ ∧
    (∀ u, ¬ Step ⟨0, Phase.failed, none⟩ u) ∧
    (∃ failedStage,
      Workflow.wf.get? 0 = some failedStage ∧
      executedStages none Workflow.wf
        = failedStage :: Workflow.wf.drop (0 + 1)) :=
  stage_failure_not_advancing ⟨0, Phase.running, none⟩
    (Relation.ReflTransGen.single (Step.start initState rfl (by decide))) rfl

/-- C6: resuming in restart mode into an existing working directory
whose checkpoint file holds the terminal stage identifier `cleanUp`
makes `runSite` return immediately after one diagnostic print: the
effect trace contains no directory creation, no registry insert, no
rupture or cfg generation and no stage build/run/postprocess. -/
theorem already_done_no_effects (env : SiteEnv) (basePath site : String) (runID : Int)
    (hr : env.restart = true) (hd : env.dirExists = true)
    (hf : env.stageFileExists = true) (hc : env.stageFileContent = "cleanUp") :
    runSiteEffects env basePath site runID
      = [Effect.printMsg ("Skipping site " ++ site ++ "\x27: Already done ")] := by
  obtain ⟨r, de, fe, fc, sif, rc⟩ := env
  simp only at hr hd hf hc
  subst hr
  subst hd
  subst hf
  subst hc
  have hlast : Workflow.wf.getLast?.getD "" = "cleanUp" := rfl
  simp [runSiteEffects, truthy, hlast]

/-- Witness for C6 with concrete environment and inputs. -/
theorem already_done_no_effects_witness :
    runSiteEffects ⟨true, true, true, "cleanUp", true, true⟩ "base" "A" 1
      = [Effect.printMsg ("Skipping site " ++ "A" ++ "\x27: Already done ")] :=
  already_done_no_effects ⟨true, true, true, "cleanUp", true, true⟩ "base" "A" 1
    rfl rfl rfl rfl

/-- C7: evaluation of the restart-mode run-id derivation at the failing
input.  Working directories `A_9` and `A_10` have numeric suffixes 9 and
10 with numeric minimum 9, but the code takes the *string* minimum of
`["9", "10"]`, which is `"10"` (lexicographically, since the character
`1` precedes `9`), so the derived starting run id is 10, not the minimum
numeric id 9 that the spec describes. -/
theorem restart_runid_lexicographic_min_eval :
    deriveRestartRunId ["A_9", "A_10"] 1 = some 10 ∧
    suffixAfterLastUnderscore "A_9" = "9" ∧
    suffixAfterLastUnderscore "A_10" = "10" ∧
    pyInt "9" = some 9 ∧
    pyInt "10" = some 10 ∧
    (9 : Nat) < 10 ∧
    pyMinString ["9", "10"] = some "10" := by
  decide
